import Mathlib

/-!
Verification development for the touslaw-gpt-proxy repository.

The repository's server code (`src/index.js`) contains two variants of a
chat-relay proxy:

* an Express variant: `app.post('/chat')` forwards `req.body` via
  `axios.post` to the chat-completion endpoint and replies with
  `{ reply: response.data.choices[0].message.content }`, with a catch
  block answering 500 `{ error: 'Proxy failed to reach OpenAI' }`;
* a raw `http`/`https` variant: a hand-rolled router handling OPTIONS,
  `POST /chat` and a 404 fallback, with a `loadEnv` routine parsing a
  `.env` file, a `setCors` helper, and a guarded
  `data.choices && data.choices[0] && data.choices[0].message &&
  data.choices[0].message.content` extraction of the reply.

JSON values are embedded as an inductive type; `JSON.parse` and the body
parsing middleware are platform code, so handlers that consume a parse
result take it as an `Option Json` parameter (`none` models a parse
exception). JavaScript truthiness and property access are embedded
explicitly where the source relies on them.
-/

/-- A JSON value, as produced by `JSON.parse` on the request and
upstream-response bodies. -/
inductive Json where
  | null
  | bool (b : Bool)
  | num (n : Int)
  | str (s : String)
  | arr (elems : List Json)
  | obj (fields : List (String × Json))
deriving Repr

/-- Field lookup in a JSON object, first match wins (duplicate keys do not
arise from `JSON.parse`, which keeps a single binding per key). -/
def lookupField : List (String × Json) → String → Option Json
  | [], _ => none
  | (k, v) :: rest, key => if k = key then some v else lookupField rest key

/-- JavaScript named-property access on a (non-null, non-undefined) value:
objects expose their fields, every other JSON value has no own named
property of interest here (`undefined`, i.e. `none`). -/
def jsGet : Json → String → Option Json
  | Json.obj fields, key => lookupField fields key
  | _, _ => none

/-- JavaScript `v[0]` on a (non-null, non-undefined) value: arrays index
their elements, strings index their characters, everything else gives
`undefined`. -/
def jsIdx0 : Json → Option Json
  | Json.arr elems => elems.head?
  | Json.str s => (s.data.head?).map (fun c => Json.str (String.mk [c]))
  | _ => none

/-- JavaScript truthiness of a value (`none` is `undefined`): `undefined`,
`null`, `false`, `0` and the empty string are falsy; objects and arrays are
always truthy. -/
def jsTruthy : Option Json → Bool
  | none => false
  | some Json.null => false
  | some (Json.bool b) => b
  | some (Json.num n) => n != 0
  | some (Json.str s) => s != ""
  | some (Json.arr _) => true
  | some (Json.obj _) => true

/-- JavaScript `a && f(a)` where `f` is the next property access: if `a`
is truthy the access is performed (safe, since truthy excludes `null` and
`undefined`), otherwise the falsy `a` itself is the result. -/
def jsAndThen (v : Option Json) (f : Json → Option Json) : Option Json :=
  if jsTruthy v then v.bind f else v

/-- The raw-http variant's reply extraction,
`data.choices && data.choices[0] && data.choices[0].message &&
data.choices[0].message.content` (src/index.js, openaiRes end handler). -/
def jsChainReply (data : Json) : Option Json :=
  jsAndThen
    (jsAndThen
      (jsAndThen (jsGet data "choices") jsIdx0)
      (fun v => jsGet v "message"))
    (fun v => jsGet v "content")

/-- Throwing named-property access, as used by the Express variant's
unguarded `response.data.choices[0].message.content`: reading a property
of `undefined` or `null` throws a TypeError (`Except.error`). -/
def jsGetField : Option Json → String → Except Unit (Option Json)
  | none, _ => Except.error ()
  | some Json.null, _ => Except.error ()
  | some v, key => Except.ok (jsGet v key)

/-- Throwing `v[0]` access: reading index 0 of `undefined` or `null`
throws a TypeError. -/
def jsIndexZero : Option Json → Except Unit (Option Json)
  | none => Except.error ()
  | some Json.null => Except.error ()
  | some v => Except.ok (jsIdx0 v)

/-- The JSON value serialized by `JSON.stringify({ reply })`:
`JSON.stringify` drops properties whose value is `undefined`, so an
`undefined` reply yields `{}`. -/
def mkReplyBody : Option Json → Json
  | none => Json.obj []
  | some v => Json.obj [("reply", v)]

/-- An HTTP response as observed by the caller: status code, headers, and
body (`none` models an empty body; JSON bodies are kept as JSON values,
`res.end(JSON.stringify(x))` and `res.json(x)` both serialize `x`). -/
structure HttpResponse where
  status : Nat
  headers : List (String × String)
  body : Option Json

/-- The three headers set by `setCors` in the raw-http variant. -/
def setCorsHeaders : List (String × String) :=
  [("Access-Control-Allow-Origin", "*"),
   ("Access-Control-Allow-Methods", "POST, OPTIONS"),
   ("Access-Control-Allow-Headers", "Content-Type")]

/-- The `Content-Type: application/json` header passed to `writeHead` by
the raw-http variant and set by `res.json` in the Express variant. -/
def jsonCT : String × String := ("Content-Type", "application/json")

/-- Headers of every Express-variant response: `app.use(cors())` adds
`Access-Control-Allow-Origin: *` to each response and `res.json` sets the
JSON content type. -/
def expressHeaders : List (String × String) :=
  [("Access-Control-Allow-Origin", "*"), jsonCT]

/-- The Express catch-block response
`res.status(500).json({ error: 'Proxy failed to reach OpenAI' })`. -/
def expressProxyFailure : HttpResponse :=
  { status := 500
    headers := expressHeaders
    body := some (Json.obj [("error", Json.str "Proxy failed to reach OpenAI")]) }

/-- The body of the Express try block after `axios.post` has resolved:
the chained accesses `response.data.choices[0].message.content` (each may
throw), then `res.json({ reply: content })`. -/
def expressChatTry (udata : Json) : Except Unit HttpResponse :=
  match jsGetField (some udata) "choices" with
  | Except.error e => Except.error e
  | Except.ok c =>
    match jsIndexZero c with
    | Except.error e => Except.error e
    | Except.ok c0 =>
      match jsGetField c0 "message" with
      | Except.error e => Except.error e
      | Except.ok m =>
        match jsGetField m "content" with
        | Except.error e => Except.error e
        | Except.ok content =>
          Except.ok { status := 200, headers := expressHeaders
                      body := some (mkReplyBody content) }

/-- The Express `/chat` handler, given the upstream HTTP status and parsed
upstream body: axios resolves only for 2xx statuses (default
`validateStatus`) and rejects otherwise, and any rejection or TypeError
lands in the catch block. -/
def expressChatHandler (ustatus : Nat) (udata : Json) : HttpResponse :=
  if 200 ≤ ustatus ∧ ustatus < 300 then
    match expressChatTry udata with
    | Except.ok r => r
    | Except.error _ => expressProxyFailure
  else expressProxyFailure

/-- The raw-http variant's `openaiRes` end handler, given the upstream
status and the outcome of `JSON.parse(result)` (`none` models a parse
exception). The handler never reads `openaiRes.statusCode`, so the status
argument is unused — exactly as in the source. -/
def rawChatUpstreamEnd (ustatus : Nat) (parseResult : Option Json) : HttpResponse :=
  match ustatus, parseResult with
  | _, some data =>
    { status := 200, headers := setCorsHeaders ++ [jsonCT]
      body := some (mkReplyBody (jsChainReply data)) }
  | _, none =>
    { status := 500, headers := setCorsHeaders ++ [jsonCT]
      body := some (Json.obj [("error", Json.str "Invalid response from OpenAI")]) }

/-- The raw-http variant's `openaiReq` error handler (network-level
failure reaching the upstream endpoint). -/
def rawChatNetworkError : HttpResponse :=
  { status := 500, headers := setCorsHeaders ++ [jsonCT]
    body := some (Json.obj [("error", Json.str "Proxy failed to reach OpenAI")]) }

/-- The chat-completion endpoint URL used by both variants. -/
def openaiChatUrl : String := "https://api.openai.com/v1/chat/completions"

/-- The Authorization header value `` `Bearer ${process.env.OPENAI_API_KEY}` ``:
when the variable is unset, JavaScript template-literal interpolation of
`undefined` produces the string "Bearer undefined". -/
def authHeaderValue (apiKey : Option String) : String :=
  "Bearer " ++ (match apiKey with | some k => k | none => "undefined")

/-- The headers both variants attach to the upstream request. -/
def chatUpstreamHeaders (apiKey : Option String) : List (String × String) :=
  [jsonCT, ("Authorization", authHeaderValue apiKey)]

/-- An outbound HTTP request to the upstream endpoint. -/
structure OutboundRequest where
  url : String
  headers : List (String × String)
  body : Json

/-- What a `/chat` handler does once the request body is available:
either issue the upstream call or respond directly. -/
inductive ChatAction where
  | callUpstream (req : OutboundRequest)
  | respond (res : HttpResponse)

/-- The upstream request built by the Express variant's `axios.post`
call: the parsed `req.body` is forwarded as-is. -/
def expressBuildUpstream (apiKey : Option String) (reqBody : Json) : OutboundRequest :=
  { url := openaiChatUrl, headers := chatUpstreamHeaders apiKey, body := reqBody }

/-- The raw-http variant's request end handler, given the outcome of
`JSON.parse(body)`: on success it issues `https.request` and writes
`JSON.stringify(requestData)` (the parsed value, unchanged); a parse
exception reaches the catch block, which answers
400 `{ error: 'Invalid request body' }`. -/
def rawChatRequestEnd (parseResult : Option Json) (apiKey : Option String) : ChatAction :=
  match parseResult with
  | some requestData =>
    ChatAction.callUpstream
      { url := openaiChatUrl, headers := chatUpstreamHeaders apiKey, body := requestData }
  | none =>
    ChatAction.respond
      { status := 400, headers := setCorsHeaders ++ [jsonCT]
        body := some (Json.obj [("error", Json.str "Invalid request body")]) }

/-- The raw-http variant's OPTIONS response: `setCors(res)`,
`res.statusCode = 204`, `res.end()` (empty body). -/
def optionsResponse : HttpResponse :=
  { status := 204, headers := setCorsHeaders, body := none }

/-- The raw-http variant's 404 fallback response. -/
def notFoundResponse : HttpResponse :=
  { status := 404, headers := setCorsHeaders ++ [jsonCT]
    body := some (Json.obj [("error", Json.str "Not found")]) }

/-- Routing outcome of the raw-http variant's `http.createServer`
callback. -/
inductive RouteOutcome where
  | options (res : HttpResponse)
  | chatRoute
  | notFound (res : HttpResponse)

/-- The raw-http variant's router: OPTIONS is answered first for any URL,
then `POST /chat` is dispatched to the chat handler, and everything else
falls through to the 404 branch. -/
def routeRequest (method url : String) : RouteOutcome :=
  if method = "OPTIONS" then RouteOutcome.options optionsResponse
  else if url = "/chat" ∧ method = "POST" then RouteOutcome.chatRoute
  else RouteOutcome.notFound notFoundResponse

/-- Models the `cors()` middleware default of the Express variant
(`app.use(cors())`), library behavior rather than repository code: an
OPTIONS preflight to any route is answered with status 204, the
`Access-Control-Allow-Origin: *` header (among others) and no body. -/
def expressCorsPreflightResponse : HttpResponse :=
  { status := 204, headers := [("Access-Control-Allow-Origin", "*")], body := none }

/-- Models the `express.json()` body-parsing middleware of the Express
variant, library behavior rather than repository code: a request body
that is not parsable as JSON is rejected with HTTP 400
(`entity.parse.failed`) before the `/chat` handler runs (error-page body
elided). -/
def expressJsonParseErrorResponse : HttpResponse :=
  { status := 400, headers := [("Access-Control-Allow-Origin", "*")], body := none }

/-- The process environment, as read and written through `process.env`:
`none` is an unset variable. -/
abbrev EnvMap := String → Option String

/-- JavaScript truthiness of `process.env[key]`: both `undefined` (unset)
and the empty string are falsy, so `!process.env[key]` holds for them. -/
def envTruthy : Option String → Bool
  | none => false
  | some s => s != ""

/-- ASCII whitespace as matched by the JavaScript `\s` class inside a
single line (`\n` cannot occur, the input is already split on it; the
Unicode space classes are outside the modelled alphabet). -/
def jsSpace (c : Char) : Bool :=
  c = ' ' || c = '\t' || c = '\r' || c = '\x0b' || c = '\x0c'

/-- Splits a character list at its first `'='`, returning the parts
before and after it. -/
def splitFirstEq : List Char → Option (List Char × List Char)
  | [] => none
  | c :: cs =>
    if c = '=' then some ([], cs)
    else match splitFirstEq cs with
      | none => none
      | some (pre, post) => some (c :: pre, post)

/-- The raw-http variant's per-line match
`line.match(/^\s*([^#=]+)\s*=\s*(.*)\s*$/)` in `loadEnv`, in closed form.
Since neither `\s*` nor `[^#=]+` can consume `'='`, the matched `'='` is
the first one in the line; the match fails when there is none, when
nothing precedes it, or when a `'#'` precedes it. The greedy `\s*` before
the key backtracks only as far as leaving `[^#=]+` nonempty, and in the
value part `.` matches everything but `'\r'` while the trailing `\s*`
absorbs whitespace containing `'\r'`. -/
def parseEnvLine (line : String) : Option (String × String) :=
  match splitFirstEq line.data with
  | none => none
  | some (pre, post) =>
    if pre.isEmpty then none
    else if pre.contains '#' then none
    else
      let lead := (pre.takeWhile jsSpace).length
      let key := pre.drop (min lead (pre.length - 1))
      let q := post.dropWhile jsSpace
      let tailWS := (q.reverse.takeWhile jsSpace).length
      let a0 := q.take (q.length - tailWS)
      if a0.contains '\r' then none
      else
        let ext := (q.drop (q.length - tailWS)).takeWhile (fun c => !(c = '\r'))
        some (String.mk key, String.mk (a0 ++ ext))

/-- One iteration of `loadEnv`'s `forEach`: on a matching line, the entry
is written only when `!process.env[key]` — i.e. when the current value is
unset or the empty string. -/
def applyEnvLine (env : EnvMap) (line : String) : EnvMap :=
  match parseEnvLine line with
  | none => env
  | some (key, value) =>
    if envTruthy (env key) then env
    else fun k => if k = key then some value else env k

/-- Splits on `'\n'`, accumulating the current line in reverse. -/
def splitLinesAux : List Char → List Char → List (List Char)
  | [], acc => [acc.reverse]
  | c :: cs, acc =>
    if c = '\n' then acc.reverse :: splitLinesAux cs []
    else splitLinesAux cs (c :: acc)

/-- Drops a single trailing `'\r'`, if present. -/
def stripCR (l : List Char) : List Char :=
  if l.getLast? = some '\r' then l.dropLast else l

/-- The split `envData.split(/\r?\n/)`: each `'\n'` ends a line and an
immediately preceding `'\r'` is part of the separator. -/
def splitEnvLines (s : String) : List String :=
  (splitLinesAux s.data []).map (fun l => String.mk (stripCR l))

/-- The raw-http variant's `loadEnv`, applied to the text of `.env`: the
lines are processed in order against the current environment. -/
def loadEnv (content : String) (env : EnvMap) : EnvMap :=
  (splitEnvLines content).foldl applyEnvLine env

/-- The outer guard of `loadEnv`: `fs.readFileSync` throwing (no `.env`
file) is swallowed and the environment is left untouched. -/
def loadEnvFromFile (content : Option String) (env : EnvMap) : EnvMap :=
  match content with
  | none => env
  | some c => loadEnv c env

/-- Modelled from the spec: the canonical upload+query+chat variant of
`index.js` is not present under `src/` (only its front-end callers and
the two chat-only drafts are). Its HTTP surface is given by §6 of the
spec: `POST /chat`, `POST /upload` (multipart file under field `file`),
`POST /query`, with CORS preflight handling and a fallback. -/
inductive RichRoute where
  | chat
  | upload
  | query
  | preflight
  | notFound
deriving DecidableEq

/-- Modelled from the spec: the rich variant's router over method and
URL, per the endpoint table of §6. -/
def richRoute (method url : String) : RichRoute :=
  if method = "OPTIONS" then RichRoute.preflight
  else if method = "POST" ∧ url = "/chat" then RichRoute.chat
  else if method = "POST" ∧ url = "/upload" then RichRoute.upload
  else if method = "POST" ∧ url = "/query" then RichRoute.query
  else RichRoute.notFound

/-- Modelled from the spec: the `/upload` success response body
`{ success: true }`. -/
def uploadSuccessBody : Json := Json.obj [("success", Json.bool true)]

/-- Modelled from the spec: the `/query` response body
`{ matches: [...] }` carrying the match list. -/
def queryMatchesBody (ms : List Json) : Json :=
  Json.obj [("matches", Json.arr ms)]

/-- Outcome of one run of the ingestion pipeline: the response status and
whether the transient uploaded file still exists afterwards. -/
structure IngestOutcome where
  status : Nat
  tempFileExists : Bool

/-- Modelled from the spec: the ingestion pipeline behind `/upload` is
not present under `src/`; §4.1 of the spec gives its sequential steps.
The upload is persisted to the temporary location first; a missing
vector-index configuration fails fast with a server error before the OCR
subprocess is spawned; an OCR process-spawn failure, an embedding-endpoint
failure and an upsert failure each surface as a server error with no
partial upsert. Deletion of the temporary file is the final step of the
success path ("the temporary file is removed on the success path"), so a
failure at any earlier step returns with the file still present. -/
def runIngestion (indexConfigured ocrSpawnOk embedOk upsertOk : Bool) : IngestOutcome :=
  if !indexConfigured then { status := 500, tempFileExists := true }
  else if !ocrSpawnOk then { status := 500, tempFileExists := true }
  else if !embedOk then { status := 500, tempFileExists := true }
  else if !upsertOk then { status := 500, tempFileExists := true }
  else { status := 200, tempFileExists := false }

example : jsChainReply (Json.obj [("id", Json.str "x")]) = none := rfl
example : "Bearer " ++ "undefined" = "Bearer undefined" := rfl
example : routeRequest "OPTIONS" "/chat" = RouteOutcome.options optionsResponse := rfl
example :
    jsChainReply
      (Json.obj [("choices",
        Json.arr [Json.obj [("message", Json.obj [("content", Json.str "hi")])]])])
      = some (Json.str "hi") := rfl
example : parseEnvLine "KEY=x" = some ("KEY", "x") := rfl
example : parseEnvLine "  A = v " = some ("A ", "v ") := rfl
example : parseEnvLine "# comment=1" = none := rfl
example : parseEnvLine "noeq" = none := rfl
example :
    loadEnv "KEY=x" (fun k => if k = "KEY" then some "" else none) "KEY" = some "x" := rfl
example :
    loadEnv "KEY=x" (fun k => if k = "KEY" then some "old" else none) "KEY" = some "old" := rfl
example : splitEnvLines "a\r\nb\nc" = ["a", "b", "c"] := rfl

/-- A well-formed upstream chat-completion body for the purposes of reply
extraction: `choices` is an array whose first element carries
`message.content`. -/
def sampleUpstream : Json :=
  Json.obj [("id", Json.str "chatcmpl-1"),
    ("choices",
      Json.arr [Json.obj [("message",
        Json.obj [("role", Json.str "assistant"), ("content", Json.str "hi")])]])]

/-- C1: for every POST /chat request whose upstream chat-completion call
succeeds (2xx) with a well-formed body — `choices` an array whose first
element is an object with a `message` object whose `content` is the
string `s` — both variants answer 200 with body `{ reply: s }`: the reply
field equals the first choice's message content exactly. -/
theorem chat_reply_matches_first_choice_content
    (fs gs hs : List (String × Json)) (rest : List Json) (s : String)
    (hc : lookupField fs "choices" = some (Json.arr (Json.obj gs :: rest)))
    (hm : lookupField gs "message" = some (Json.obj hs))
    (hct : lookupField hs "content" = some (Json.str s)) :
    expressChatHandler 200 (Json.obj fs)
      = { status := 200, headers := expressHeaders
          body := some (Json.obj [("reply", Json.str s)]) } ∧
    rawChatUpstreamEnd 200 (some (Json.obj fs))
      = { status := 200, headers := setCorsHeaders ++ [jsonCT]
          body := some (Json.obj [("reply", Json.str s)]) } := by
  constructor
  · simp [expressChatHandler, expressChatTry, jsGetField, jsIndexZero, jsGet,
      jsIdx0, mkReplyBody, hc, hm, hct]
  · simp [rawChatUpstreamEnd, jsChainReply, jsAndThen, jsGet, jsIdx0, jsTruthy,
      mkReplyBody, hc, hm, hct]

/-- Witness for C1 at a concrete well-formed upstream body. -/
theorem chat_reply_matches_first_choice_content_witness :
    (lookupField [("message",
        Json.obj [("role", Json.str "assistant"), ("content", Json.str "hi")])]
        "message"
      = some (Json.obj [("role", Json.str "assistant"), ("content", Json.str "hi")]) ∧
     lookupField [("role", Json.str "assistant"), ("content", Json.str "hi")] "content"
      = some (Json.str "hi")) ∧
    expressChatHandler 200 sampleUpstream
      = { status := 200, headers := expressHeaders
          body := some (Json.obj [("reply", Json.str "hi")]) } ∧
    rawChatUpstreamEnd 200 (some sampleUpstream)
      = { status := 200, headers := setCorsHeaders ++ [jsonCT]
          body := some (Json.obj [("reply", Json.str "hi")]) } :=
  ⟨⟨rfl, rfl⟩,
    chat_reply_matches_first_choice_content
      [("id", Json.str "chatcmpl-1"),
       ("choices",
         Json.arr [Json.obj [("message",
           Json.obj [("role", Json.str "assistant"), ("content", Json.str "hi")])]])]
      [("message", Json.obj [("role", Json.str "assistant"), ("content", Json.str "hi")])]
      [("role", Json.str "assistant"), ("content", Json.str "hi")]
      [] "hi" rfl rfl rfl⟩

/-- C2: on an upstream HTTP 500 whose body is the usual JSON error
object, the Express variant does answer 500 with the generic message, but
the raw-http variant never reads `openaiRes.statusCode`: it answers
HTTP 200 with body `{}` (the reply is `undefined` and is dropped by
`JSON.stringify`), not HTTP 500 with the generic error — contradicting
the claim. -/
theorem raw_variant_upstream_500_masked :
    rawChatUpstreamEnd 500
        (some (Json.obj [("error", Json.obj [("message", Json.str "boom")])]))
      = { status := 200, headers := setCorsHeaders ++ [jsonCT]
          body := some (Json.obj []) } ∧
    expressChatHandler 500 (Json.obj [("error", Json.obj [("message", Json.str "boom")])])
      = expressProxyFailure := by
  constructor
  · rfl
  · rfl

/-- C3: when the upstream body is valid JSON without a `choices` array,
the Express variant's TypeError lands in its catch block (an error
response, though the generic one), but the raw-http variant's guarded
`&&` chain yields `undefined` and the handler answers HTTP 200 with body
`{}` — a success, not the distinct error response the claim requires
(its distinct 'Invalid response from OpenAI' branch fires only when the
body is unparsable). -/
theorem raw_variant_missing_choices_no_error :
    rawChatUpstreamEnd 200 (some (Json.obj [("id", Json.str "chatcmpl-1")]))
      = { status := 200, headers := setCorsHeaders ++ [jsonCT]
          body := some (Json.obj []) } ∧
    (rawChatUpstreamEnd 200 (some (Json.obj [("id", Json.str "chatcmpl-1")]))).status < 400 ∧
    expressChatHandler 200 (Json.obj [("id", Json.str "chatcmpl-1")])
      = expressProxyFailure ∧
    rawChatUpstreamEnd 200 none
      = { status := 500, headers := setCorsHeaders ++ [jsonCT]
          body := some (Json.obj [("error", Json.str "Invalid response from OpenAI")]) } := by
  refine ⟨rfl, by decide, rfl, rfl⟩

/-- C4: both variants forward the parsed request body to the upstream
chat-completion endpoint unchanged (the parse–stringify roundtrip
preserves the JSON value), and the attached headers are exactly the JSON
content type and the Authorization header carrying the server-held
credential. -/
theorem chat_payload_forwarded_verbatim (b : Json) (apiKey : Option String) :
    rawChatRequestEnd (some b) apiKey
      = ChatAction.callUpstream
          { url := openaiChatUrl, headers := chatUpstreamHeaders apiKey, body := b } ∧
    expressBuildUpstream apiKey b
      = { url := openaiChatUrl, headers := chatUpstreamHeaders apiKey, body := b } ∧
    chatUpstreamHeaders apiKey
      = [("Content-Type", "application/json"), ("Authorization", authHeaderValue apiKey)] :=
  ⟨rfl, rfl, rfl⟩

/-- C5: the (spec-modelled) canonical server surface routes POST /upload
and POST /query alongside POST /chat, with `/upload` answering
`{ success: true }` and `/query` answering `{ matches: [...] }`. -/
theorem http_surface_upload_query_chat :
    richRoute "POST" "/upload" = RichRoute.upload ∧
    richRoute "POST" "/query" = RichRoute.query ∧
    richRoute "POST" "/chat" = RichRoute.chat ∧
    lookupField [("success", Json.bool true)] "success" = some (Json.bool true) ∧
    uploadSuccessBody = Json.obj [("success", Json.bool true)] ∧
    (∀ ms : List Json, queryMatchesBody ms = Json.obj [("matches", Json.arr ms)]) :=
  ⟨rfl, rfl, rfl, rfl, rfl, fun _ => rfl⟩

/-- C6: in the (spec-modelled) ingestion pipeline, deletion of the
temporary file is the final step of the success path, so a failing
embedding step returns a server error with the file still present —
contradicting the claim that the file is gone on every path (the success
path does remove it). -/
theorem ingestion_failure_leaves_temp_file :
    (runIngestion true true false true).tempFileExists = true ∧
    (runIngestion true true false true).status = 500 ∧
    (runIngestion true true true true).tempFileExists = false ∧
    (runIngestion true true true true).status = 200 :=
  ⟨rfl, rfl, rfl, rfl⟩

/-- C7: with the chat credential absent from the environment, neither
variant fails fast: both still build and issue the upstream request, with
the Authorization header reading "Bearer undefined" — contradicting the
claim that no outbound network call is attempted. -/
theorem missing_credential_call_attempted :
    rawChatRequestEnd (some (Json.obj [("model", Json.str "gpt-4")])) none
      = ChatAction.callUpstream
          { url := openaiChatUrl
            headers := [("Content-Type", "application/json"),
                        ("Authorization", "Bearer undefined")]
            body := Json.obj [("model", Json.str "gpt-4")] } ∧
    expressBuildUpstream none (Json.obj [("model", Json.str "gpt-4")])
      = { url := openaiChatUrl
          headers := [("Content-Type", "application/json"),
                      ("Authorization", "Bearer undefined")]
          body := Json.obj [("model", Json.str "gpt-4")] } :=
  ⟨rfl, rfl⟩

/-- C8: an OPTIONS request to any URL is answered by the raw-http router
with status 204 (a success status), the permissive
`Access-Control-Allow-Origin: *` header, and an empty body; the Express
variant's `cors()` middleware default does the same. -/
theorem options_preflight_success_cors (url : String) :
    routeRequest "OPTIONS" url = RouteOutcome.options optionsResponse ∧
    optionsResponse.status = 204 ∧
    200 ≤ optionsResponse.status ∧ optionsResponse.status < 300 ∧
    ("Access-Control-Allow-Origin", "*") ∈ optionsResponse.headers ∧
    optionsResponse.body = none ∧
    expressCorsPreflightResponse.status = 204 ∧
    ("Access-Control-Allow-Origin", "*") ∈ expressCorsPreflightResponse.headers ∧
    expressCorsPreflightResponse.body = none := by
  refine ⟨rfl, rfl, by decide, by decide, by decide, rfl, rfl, by decide, rfl⟩

/-- C9: a POST /chat body that is not parsable as JSON is answered with
HTTP 400 `{ error: 'Invalid request body' }` by the raw-http variant's
catch block — a client error, strictly below the 5xx range — and the
Express variant's `express.json()` middleware likewise rejects it with
status 400. -/
theorem unparsable_body_client_error (apiKey : Option String) :
    rawChatRequestEnd none apiKey
      = ChatAction.respond
          { status := 400, headers := setCorsHeaders ++ [jsonCT]
            body := some (Json.obj [("error", Json.str "Invalid request body")]) } ∧
    (400 : Nat) < 500 ∧
    expressJsonParseErrorResponse.status = 400 ∧
    expressJsonParseErrorResponse.status < 500 :=
  ⟨rfl, by decide, rfl, by decide⟩

/-- The `.env` loader's guard `!process.env[key]` treats a variable set
to the empty string as unset: an environment where KEY is set (to "") is
overwritten by the .env entry `KEY=x`, refuting the claim that a key
already set is never overwritten. -/
theorem loadEnv_overwrites_empty_value :
    (fun k => if k = "KEY" then some "" else none : EnvMap) "KEY" = some "" ∧
    loadEnv "KEY=x" (fun k => if k = "KEY" then some "" else none) "KEY" = some "x" :=
  ⟨rfl, rfl⟩

/-- One `forEach` iteration of `loadEnv` leaves a key with a non-empty
value untouched: the guard `!process.env[key]` is false for it. -/
theorem applyEnvLine_preserves_nonempty (env : EnvMap) (line k v : String)
    (hset : env k = some v) (hne : v ≠ "") :
    applyEnvLine env line k = some v := by
  unfold applyEnvLine
  cases hp : parseEnvLine line with
  | none => exact hset
  | some kv =>
    obtain ⟨key, value⟩ := kv
    by_cases hk : envTruthy (env key)
    · simpa [hk] using hset
    · simp only [hk, if_false, Bool.false_eq_true]
      by_cases hkey : k = key
      · subst hkey
        rw [hset] at hk
        simp [envTruthy] at hk
        exact absurd hk hne
      · simp [hkey, hset]

/-- C10 (amended): `loadEnv` never overwrites an environment variable
whose current value is a non-empty string; only keys that are unset or
set to the empty string can receive a value from a `.env` entry. -/
theorem loadEnv_preserves_nonempty_values (env : EnvMap) (content k v : String)
    (hset : env k = some v) (hne : v ≠ "") :
    loadEnv content env k = some v := by
  unfold loadEnv
  generalize splitEnvLines content = lines
  induction lines generalizing env with
  | nil => exact hset
  | cons l ls ih =>
    exact ih (applyEnvLine env l) (applyEnvLine_preserves_nonempty env l k v hset hne)

/-- Witness for the amended C10 at a concrete environment and .env
content. -/
theorem loadEnv_preserves_nonempty_values_witness :
    ((fun k => if k = "A" then some "keep" else none : EnvMap) "A" = some "keep" ∧
      "keep" ≠ "") ∧
    loadEnv "A=other" (fun k => if k = "A" then some "keep" else none) "A" = some "keep" :=
  ⟨⟨rfl, by decide⟩,
    loadEnv_preserves_nonempty_values
      (fun k => if k = "A" then some "keep" else none) "A=other" "A" "keep" rfl (by decide)⟩
